import Mathlib

/-!
Verification of the great-circle distance calculator in `src/haversine.py`
against its design document.

The Python code is embedded shallowly over the exact reals: `math.sin`,
`math.cos`, `math.asin`, `math.sqrt` become `Real.sin`, `Real.cos`,
`Real.arcsin`, `Real.sqrt`, and `math.radians x` becomes `x * π / 180`.
The two partial library functions (`math.sqrt` raises `ValueError` on a
negative argument, `math.asin` raises `ValueError` outside `[-1, 1]`) are
additionally modelled as `Option`-valued functions, so that "the
computation raises no domain error" is a statable property.
-/

namespace Haversine

open Real

/-- Embedding of `math.radians`: converts decimal degrees to radians. -/
noncomputable def radians (x : ℝ) : ℝ := x * π / 180

/-- Shallow embedding of `haversine_distance` (src/haversine.py, lines 6-24)
over exact real arithmetic, keeping the structure of the source: convert the
four inputs to radians, form the differences, apply the haversine formula,
and scale by the earth radius 6371 km.  Note the source applies
`math.asin(math.sqrt(a))` directly, with no clamping of `a`. -/
noncomputable def haversine_distance (lat1 lon1 lat2 lon2 : ℝ) : ℝ :=
  let lat1 := radians lat1
  let lon1 := radians lon1
  let lat2 := radians lat2
  let lon2 := radians lon2
  let dlat := lat2 - lat1
  let dlon := lon2 - lon1
  let a := Real.sin (dlat / 2) ^ 2 + Real.cos lat1 * Real.cos lat2 * Real.sin (dlon / 2) ^ 2
  let c := 2 * Real.arcsin (Real.sqrt a)
  let r : ℝ := 6371
  c * r

/-- The intermediate value `a` of line 18 of `src/haversine.py`, as a function
of the four degree-valued inputs. -/
noncomputable def haversine_a (lat1 lon1 lat2 lon2 : ℝ) : ℝ :=
  Real.sin ((radians lat2 - radians lat1) / 2) ^ 2 +
    Real.cos (radians lat1) * Real.cos (radians lat2) *
      Real.sin ((radians lon2 - radians lon1) / 2) ^ 2

lemma haversine_distance_def (lat1 lon1 lat2 lon2 : ℝ) :
    haversine_distance lat1 lon1 lat2 lon2 =
      2 * Real.arcsin (Real.sqrt (haversine_a lat1 lon1 lat2 lon2)) * 6371 := rfl

/-- Embedding of `math.sqrt`, which raises `ValueError` on a negative
argument: `none` models the raised error. -/
noncomputable def sqrtChecked (x : ℝ) : Option ℝ :=
  if x < 0 then none else some (Real.sqrt x)

/-- Embedding of `math.asin`, which raises `ValueError` (a math domain error)
on an argument outside `[-1, 1]`: `none` models the raised error. -/
noncomputable def asinChecked (x : ℝ) : Option ℝ :=
  if x < -1 ∨ 1 < x then none else some (Real.arcsin x)

/-- Error-aware embedding of lines 18-24 of `src/haversine.py`: the same
computation as `haversine_distance`, but routed through the partial library
functions, so a domain error in `math.sqrt` or `math.asin` surfaces as
`none`. -/
noncomputable def haversineChecked (lat1 lon1 lat2 lon2 : ℝ) : Option ℝ :=
  (sqrtChecked (haversine_a lat1 lon1 lat2 lon2)).bind fun s =>
    (asinChecked s).bind fun t => some (2 * t * 6371)

/-- Embedding of line 84 of `src/haversine.py`: the mile value is the
kilometer value scaled by the fixed constant 0.621371. -/
noncomputable def distance_miles (distance_km : ℝ) : ℝ := distance_km * 0.621371

/-- Embedding of line 100 of `src/haversine.py`. -/
noncomputable def center_lat (lat1 lat2 : ℝ) : ℝ := (lat1 + lat2) / 2

/-- Embedding of line 101 of `src/haversine.py`. -/
noncomputable def center_lon (lon1 lon2 : ℝ) : ℝ := (lon1 + lon2) / 2

/-- Half-angle identity used to rewrite the haversine terms. -/
lemma sin_half_sq (x : ℝ) : Real.sin (x / 2) ^ 2 = (1 - Real.cos x) / 2 := by
  have h := Real.cos_sq (x / 2)
  have h2 := Real.sin_sq_add_cos_sq (x / 2)
  have hx : 2 * (x / 2) = x := by ring
  rw [hx] at h
  linarith

/-- The spherical dot product is at most 1, for arbitrary real angles. -/
lemma dot_le_one (a b t : ℝ) :
    Real.sin a * Real.sin b + Real.cos a * Real.cos b * Real.cos t ≤ 1 := by
  rcases le_or_lt 0 (Real.cos a * Real.cos b) with h | h
  · have ht : Real.cos a * Real.cos b * Real.cos t ≤ Real.cos a * Real.cos b :=
      mul_le_of_le_one_right h (Real.cos_le_one t)
    nlinarith [sq_nonneg (Real.sin a - Real.sin b), sq_nonneg (Real.cos a - Real.cos b),
      Real.sin_sq_add_cos_sq a, Real.sin_sq_add_cos_sq b]
  · have ht : Real.cos a * Real.cos b * Real.cos t ≤ -(Real.cos a * Real.cos b) := by
      nlinarith [Real.neg_one_le_cos t]
    nlinarith [sq_nonneg (Real.sin a - Real.sin b), sq_nonneg (Real.cos a + Real.cos b),
      Real.sin_sq_add_cos_sq a, Real.sin_sq_add_cos_sq b]

/-- The spherical dot product is at least -1, for arbitrary real angles. -/
lemma neg_one_le_dot (a b t : ℝ) :
    -1 ≤ Real.sin a * Real.sin b + Real.cos a * Real.cos b * Real.cos t := by
  rcases le_or_lt 0 (Real.cos a * Real.cos b) with h | h
  · have ht : -(Real.cos a * Real.cos b) ≤ Real.cos a * Real.cos b * Real.cos t := by
      nlinarith [Real.neg_one_le_cos t]
    nlinarith [sq_nonneg (Real.sin a + Real.sin b), sq_nonneg (Real.cos a - Real.cos b),
      Real.sin_sq_add_cos_sq a, Real.sin_sq_add_cos_sq b]
  · have ht : Real.cos a * Real.cos b ≤ Real.cos a * Real.cos b * Real.cos t := by
      nlinarith [Real.cos_le_one t]
    nlinarith [sq_nonneg (Real.sin a + Real.sin b), sq_nonneg (Real.cos a + Real.cos b),
      Real.sin_sq_add_cos_sq a, Real.sin_sq_add_cos_sq b]

/-- The haversine intermediate as half of one minus the spherical dot
product. -/
lemma haversine_a_eq_dot (lat1 lon1 lat2 lon2 : ℝ) :
    haversine_a lat1 lon1 lat2 lon2 =
      (1 - (Real.sin (radians lat1) * Real.sin (radians lat2) +
        Real.cos (radians lat1) * Real.cos (radians lat2) *
          Real.cos (radians lon2 - radians lon1))) / 2 := by
  unfold haversine_a
  rw [sin_half_sq, sin_half_sq, Real.cos_sub]
  ring

/-- In exact real arithmetic the intermediate `a` is never negative, for any
real inputs whatsoever. -/
lemma haversine_a_nonneg (lat1 lon1 lat2 lon2 : ℝ) :
    0 ≤ haversine_a lat1 lon1 lat2 lon2 := by
  rw [haversine_a_eq_dot]
  have h := dot_le_one (radians lat1) (radians lat2) (radians lon2 - radians lon1)
  linarith

/-- In exact real arithmetic the intermediate `a` never exceeds 1, for any
real inputs whatsoever. -/
lemma haversine_a_le_one (lat1 lon1 lat2 lon2 : ℝ) :
    haversine_a lat1 lon1 lat2 lon2 ≤ 1 := by
  rw [haversine_a_eq_dot]
  have h := neg_one_le_dot (radians lat1) (radians lat2) (radians lon2 - radians lon1)
  linarith

lemma sqrt_haversine_a_le_one (lat1 lon1 lat2 lon2 : ℝ) :
    Real.sqrt (haversine_a lat1 lon1 lat2 lon2) ≤ 1 := by
  calc Real.sqrt (haversine_a lat1 lon1 lat2 lon2)
      ≤ Real.sqrt 1 := Real.sqrt_le_sqrt (haversine_a_le_one lat1 lon1 lat2 lon2)
    _ = 1 := Real.sqrt_one

lemma haversine_distance_nonneg (lat1 lon1 lat2 lon2 : ℝ) :
    0 ≤ haversine_distance lat1 lon1 lat2 lon2 := by
  rw [haversine_distance_def]
  have h : 0 ≤ Real.arcsin (Real.sqrt (haversine_a lat1 lon1 lat2 lon2)) :=
    Real.arcsin_nonneg.mpr (Real.sqrt_nonneg _)
  nlinarith

lemma haversine_distance_le_pi_mul (lat1 lon1 lat2 lon2 : ℝ) :
    haversine_distance lat1 lon1 lat2 lon2 ≤ 6371 * π := by
  rw [haversine_distance_def]
  have h : Real.arcsin (Real.sqrt (haversine_a lat1 lon1 lat2 lon2)) ≤ π / 2 :=
    Real.arcsin_le_pi_div_two _
  nlinarith

lemma haversine_a_symm (lat1 lon1 lat2 lon2 : ℝ) :
    haversine_a lat2 lon2 lat1 lon1 = haversine_a lat1 lon1 lat2 lon2 := by
  unfold haversine_a
  have h1 : (radians lat1 - radians lat2) / 2 = -((radians lat2 - radians lat1) / 2) := by ring
  have h2 : (radians lon1 - radians lon2) / 2 = -((radians lon2 - radians lon1) / 2) := by ring
  rw [h1, h2, Real.sin_neg, Real.sin_neg]
  ring

lemma haversine_a_self (lat lon : ℝ) : haversine_a lat lon lat lon = 0 := by
  unfold haversine_a
  simp [sub_self]

lemma haversine_a_lon_shift (lat1 lon1 lat2 lon2 d : ℝ) :
    haversine_a lat1 (lon1 + d) lat2 (lon2 + d) = haversine_a lat1 lon1 lat2 lon2 := by
  unfold haversine_a
  have h : (radians (lon2 + d) - radians (lon1 + d)) / 2 =
      (radians lon2 - radians lon1) / 2 := by
    unfold radians; ring
  rw [h]

lemma radians_neg (x : ℝ) : radians (-x) = -radians x := by unfold radians; ring

lemma haversine_a_reflect (lat1 lon1 lat2 lon2 : ℝ) :
    haversine_a (-lat1) lon1 (-lat2) lon2 = haversine_a lat1 lon1 lat2 lon2 := by
  unfold haversine_a
  rw [radians_neg, radians_neg]
  have h : (-radians lat2 - -radians lat1) / 2 = -((radians lat2 - radians lat1) / 2) := by
    ring
  rw [h, Real.sin_neg, Real.cos_neg, Real.cos_neg]
  ring

lemma haversine_a_antipodal_equator : haversine_a 0 0 0 180 = 1 := by
  unfold haversine_a
  have h1 : (radians 0 - radians 0) / 2 = 0 := by unfold radians; ring
  have h2 : (radians 180 - radians 0) / 2 = π / 2 := by unfold radians; ring
  have h3 : radians 0 = 0 := by unfold radians; ring
  rw [h1, h2, h3, Real.sin_zero, Real.cos_zero, Real.sin_pi_div_two]
  norm_num

lemma haversine_distance_antipodal_equator :
    haversine_distance 0 0 0 180 = 6371 * π := by
  rw [haversine_distance_def, haversine_a_antipodal_equator, Real.sqrt_one,
    Real.arcsin_one]
  ring

lemma haversine_a_boundary : haversine_a 2.5 0 (-2.5) 180 = 1 := by
  unfold haversine_a
  have h1 : (radians (-2.5) - radians 2.5) / 2 = -(π / 72) := by unfold radians; ring
  have h2 : (radians 180 - radians 0) / 2 = π / 2 := by unfold radians; ring
  have h3 : radians 2.5 = π / 72 := by unfold radians; ring
  have h4 : radians (-2.5) = -(π / 72) := by unfold radians; ring
  rw [h1, h2, h3, h4, Real.sin_neg, Real.cos_neg, Real.sin_pi_div_two]
  linear_combination Real.sin_sq_add_cos_sq (π / 72)

lemma arcsin_sqrt_two_div_two : Real.arcsin (Real.sqrt 2 / 2) = π / 4 := by
  rw [← Real.sin_pi_div_four]
  exact Real.arcsin_sin (by linarith [Real.pi_pos]) (by linarith [Real.pi_pos])

lemma arcsin_one_div_two : Real.arcsin (1 / 2) = π / 6 := by
  rw [← Real.sin_pi_div_six]
  exact Real.arcsin_sin (by linarith [Real.pi_pos]) (by linarith [Real.pi_pos])

lemma sqrt_one_div_two : Real.sqrt (1 / 2) = Real.sqrt 2 / 2 := by
  have h : ((Real.sqrt 2) / 2) ^ 2 = 1 / 2 := by
    rw [div_pow, Real.sq_sqrt (by norm_num : (0:ℝ) ≤ 2)]
    norm_num
  rw [← h, Real.sqrt_sq (by positivity)]

lemma sqrt_one_div_four : Real.sqrt (1 / 4) = 1 / 2 := by
  have h : ((1:ℝ) / 2) ^ 2 = 1 / 4 := by norm_num
  rw [← h, Real.sqrt_sq (by norm_num)]

lemma haversine_a_45_pair : haversine_a 45 0 45 180 = 1 / 2 := by
  unfold haversine_a
  have h1 : (radians 45 - radians 45) / 2 = 0 := by unfold radians; ring
  have h2 : (radians 180 - radians 0) / 2 = π / 2 := by unfold radians; ring
  have h3 : radians 45 = π / 4 := by unfold radians; ring
  rw [h1, h2, h3, Real.sin_zero, Real.cos_pi_div_four, Real.sin_pi_div_two]
  linear_combination (1 / 4 : ℝ) * Real.sq_sqrt (by norm_num : (0:ℝ) ≤ 2)

lemma haversine_a_45_mean : haversine_a 45 0 45 90 = 1 / 4 := by
  unfold haversine_a
  have h1 : (radians 45 - radians 45) / 2 = 0 := by unfold radians; ring
  have h2 : (radians 90 - radians 0) / 2 = π / 4 := by unfold radians; ring
  have h3 : radians 45 = π / 4 := by unfold radians; ring
  rw [h1, h2, h3, Real.sin_zero, Real.cos_pi_div_four, Real.sin_pi_div_four]
  linear_combination ((Real.sqrt 2) ^ 2 + 2) / 16 * Real.sq_sqrt (by norm_num : (0:ℝ) ≤ 2)

lemma haversine_distance_45_pair : haversine_distance 45 0 45 180 = 6371 * π / 2 := by
  rw [haversine_distance_def, haversine_a_45_pair, sqrt_one_div_two,
    arcsin_sqrt_two_div_two]
  ring

lemma haversine_distance_45_mean : haversine_distance 45 0 45 90 = 6371 * π / 3 := by
  rw [haversine_distance_def, haversine_a_45_mean, sqrt_one_div_four,
    arcsin_one_div_two]
  ring

/-- The distance formula exactly as §4.1 of the design document words it:
Δφ and Δλ in radians, a = sin²(Δφ/2) + cos(lat1)·cos(lat2)·sin²(Δλ/2),
c = 2·asin(√a), distance = c × 6371.  Written from the spec for comparison
with the code-derived `haversine_distance`. -/
noncomputable def spec_distance (lat1 lon1 lat2 lon2 : ℝ) : ℝ :=
  let dphi := radians lat2 - radians lat1
  let dlam := radians lon2 - radians lon1
  let a := Real.sin (dphi / 2) ^ 2 +
    Real.cos (radians lat1) * Real.cos (radians lat2) * Real.sin (dlam / 2) ^ 2
  let c := 2 * Real.arcsin (Real.sqrt a)
  c * 6371

/-- C1: the code has no clamp on `a`, contrary to the claim.  At the
antipodal input (2.5, 0) / (-2.5, 180) the exact value of `a` is exactly 1,
the boundary of the asin domain, so the unclamped line 19 has no margin for
upward rounding (and in IEEE doubles `a` indeed evaluates to
1.0000000000000002 there); in exact arithmetic the distance at this input is
6371·π ≈ 20015.09 km. -/
theorem haversine_unclamped_boundary :
    haversine_a 2.5 0 (-2.5) 180 = 1 ∧
      haversine_distance 2.5 0 (-2.5) 180 = 6371 * π ∧
        |haversine_distance 2.5 0 (-2.5) 180 - 20015.09| < 0.01 := by
  have hd : haversine_distance 2.5 0 (-2.5) 180 = 6371 * π := by
    rw [haversine_distance_def, haversine_a_boundary, Real.sqrt_one, Real.arcsin_one]
    ring
  refine ⟨haversine_a_boundary, hd, ?_⟩
  rw [hd, abs_lt]
  constructor
  · nlinarith [Real.pi_gt_d6]
  · nlinarith [Real.pi_lt_d6]

/-- C2: for every four real inputs, `haversine_distance` computes exactly the
formula of the spec: radian conversion, Δφ, Δλ, a, c = 2·asin(√a), and
c × 6371. -/
theorem haversine_matches_spec_formula (lat1 lon1 lat2 lon2 : ℝ) :
    haversine_distance lat1 lon1 lat2 lon2 = spec_distance lat1 lon1 lat2 lon2 := rfl

/-- C3: `haversine_distance` is symmetric in its two coordinate arguments,
exactly, in exact real arithmetic. -/
theorem haversine_symm (lat1 lon1 lat2 lon2 : ℝ) :
    haversine_distance lat2 lon2 lat1 lon1 = haversine_distance lat1 lon1 lat2 lon2 := by
  rw [haversine_distance_def, haversine_distance_def, haversine_a_symm]

/-- C4: `haversine_distance` on two identical coordinates returns exactly 0. -/
theorem haversine_self (lat lon : ℝ) :
    haversine_distance lat lon lat lon = 0 := by
  rw [haversine_distance_def, haversine_a_self, Real.sqrt_zero, Real.arcsin_zero]
  ring

/-- C5: for valid inputs (latitudes in [-90, 90], longitudes in [-180, 180])
the distance is non-negative and at most 20015.09 km. -/
theorem haversine_range (lat1 lon1 lat2 lon2 : ℝ)
    (h1 : -90 ≤ lat1) (h2 : lat1 ≤ 90) (h3 : -180 ≤ lon1) (h4 : lon1 ≤ 180)
    (h5 : -90 ≤ lat2) (h6 : lat2 ≤ 90) (h7 : -180 ≤ lon2) (h8 : lon2 ≤ 180) :
    0 ≤ haversine_distance lat1 lon1 lat2 lon2 ∧
      haversine_distance lat1 lon1 lat2 lon2 ≤ 20015.09 := by
  refine ⟨haversine_distance_nonneg lat1 lon1 lat2 lon2, ?_⟩
  have h := haversine_distance_le_pi_mul lat1 lon1 lat2 lon2
  nlinarith [Real.pi_lt_d6]

/-- Witness for C5 at the antipodal pair (0,0) and (0,180). -/
theorem haversine_range_witness :
    ((-90:ℝ) ≤ 0 ∧ (0:ℝ) ≤ 90 ∧ (-180:ℝ) ≤ 180) ∧
      0 ≤ haversine_distance 0 0 0 180 ∧ haversine_distance 0 0 0 180 ≤ 20015.09 :=
  ⟨⟨by norm_num, by norm_num, by norm_num⟩,
    haversine_range 0 0 0 180 (by norm_num) (by norm_num) (by norm_num) (by norm_num)
      (by norm_num) (by norm_num) (by norm_num) (by norm_num)⟩

/-- C6: the mile value displayed by the app is the kilometer value from
`haversine_distance` scaled by the fixed constant 0.621371, exactly. -/
theorem miles_is_fixed_scaling (lat1 lon1 lat2 lon2 : ℝ) :
    distance_miles (haversine_distance lat1 lon1 lat2 lon2) =
      haversine_distance lat1 lon1 lat2 lon2 * 0.621371 := rfl

/-- C7: no input validation: for all four real inputs, in range or not, the
error-aware embedding returns a value, never a domain error, and that value
agrees with `haversine_distance`. -/
theorem haversine_no_validation (lat1 lon1 lat2 lon2 : ℝ) :
    haversineChecked lat1 lon1 lat2 lon2 =
      some (haversine_distance lat1 lon1 lat2 lon2) := by
  have ha0 := haversine_a_nonneg lat1 lon1 lat2 lon2
  have ha1 := sqrt_haversine_a_le_one lat1 lon1 lat2 lon2
  have hs0 : (0:ℝ) ≤ Real.sqrt (haversine_a lat1 lon1 lat2 lon2) := Real.sqrt_nonneg _
  have e1 : sqrtChecked (haversine_a lat1 lon1 lat2 lon2) =
      some (Real.sqrt (haversine_a lat1 lon1 lat2 lon2)) := by
    unfold sqrtChecked
    rw [if_neg (not_lt.mpr ha0)]
  have e2 : asinChecked (Real.sqrt (haversine_a lat1 lon1 lat2 lon2)) =
      some (Real.arcsin (Real.sqrt (haversine_a lat1 lon1 lat2 lon2))) := by
    unfold asinChecked
    rw [if_neg]
    push_neg
    exact ⟨by linarith, by linarith⟩
  unfold haversineChecked
  rw [haversine_distance_def, e1]
  simp [e2]

/-- C8: the map center is the arithmetic mean of the two coordinates, and at
the concrete pair (45,0), (45,180) that mean (45,90) is not the geodesic
midpoint: the distance from (45,0) to the mean differs from half the
distance between the endpoints. -/
theorem center_is_arithmetic_mean :
    (∀ lat1 lat2 : ℝ, center_lat lat1 lat2 = (lat1 + lat2) / 2) ∧
      (∀ lon1 lon2 : ℝ, center_lon lon1 lon2 = (lon1 + lon2) / 2) ∧
        center_lat 45 45 = 45 ∧ center_lon 0 180 = 90 ∧
          haversine_distance 45 0 (center_lat 45 45) (center_lon 0 180) ≠
            haversine_distance 45 0 45 180 / 2 := by
  have hlat : center_lat 45 45 = (45:ℝ) := by norm_num [center_lat]
  have hlon : center_lon 0 180 = (90:ℝ) := by norm_num [center_lon]
  refine ⟨fun a b => rfl, fun a b => rfl, hlat, hlon, ?_⟩
  rw [hlat, hlon, haversine_distance_45_mean, haversine_distance_45_pair]
  intro h
  have hpi := Real.pi_pos
  linarith

/-- C9: the distance depends on the longitudes only through their
difference: shifting both longitudes by any real d leaves it unchanged. -/
theorem haversine_lon_shift (lat1 lon1 lat2 lon2 d : ℝ) :
    haversine_distance lat1 (lon1 + d) lat2 (lon2 + d) =
      haversine_distance lat1 lon1 lat2 lon2 := by
  rw [haversine_distance_def, haversine_distance_def, haversine_a_lon_shift]

/-- C10: the distance is invariant under reflection across the equator:
negating both latitudes leaves it unchanged. -/
theorem haversine_equator_reflect (lat1 lon1 lat2 lon2 : ℝ) :
    haversine_distance (-lat1) lon1 (-lat2) lon2 =
      haversine_distance lat1 lon1 lat2 lon2 := by
  rw [haversine_distance_def, haversine_distance_def, haversine_a_reflect]

end Haversine
